import Mathlib

/-!
Verification development for the Agent Message Bus
(src/src/agents/message_bus.py of sharstream/skysentinel-backend).

The bus keeps three Python dicts:
  _agents : Dict[str, WebSocket]           (Connection Registry)
  _subscriptions : Dict[str, Set[str]]     (Subscription Index, topic -> ids)
  _agent_capabilities : Dict[str, List[str]]

We embed the dicts as association lists with Python-dict semantics
(first-match lookup, in-place replacement on update, append on fresh key)
and Python sets of strings as duplicate-free lists (membership add,
filter-based discard).  Each bus method becomes a Lean function from the
bus state and its arguments to the new state together with the observable
effects: a `send_json` call on an agent's websocket is recorded as a
delivery attempt, and a websocket whose `failing` flag is set models a
connection whose `send_json` raises.
-/

namespace AgentBus

/-- A JSON-like payload value, standing in for the Python dict payloads. -/
inductive JVal where
  | str : String → JVal
  | num : Int → JVal
  | list : List JVal → JVal
  | obj : List (String × JVal) → JVal

/-- A websocket connection handle.  `failing = true` models a connection
whose `send_json` raises an exception. -/
structure Conn where
  id : Nat
  failing : Bool
  deriving DecidableEq

/-- The pub/sub message payload built by `publish`:
`{'topic':…, 'sender':…, 'data':…, 'timestamp':…}`. -/
structure Envelope where
  topic : String
  sender : String
  data : JVal
  timestamp : String

/-- The direct-message payload built by `direct_message`:
`{'type': 'direct_message', 'sender':…, 'data':…, 'timestamp':…}`. -/
structure DirectEnvelope where
  type : String
  sender : String
  data : JVal
  timestamp : String

/-- One `send_json` call made during a broadcast: the recipient agent id,
the payload sent, and whether the send succeeded (`ok = false` when the
recipient's connection raised; `publish` catches that exception). -/
structure Attempt where
  recipient : String
  envelope : Envelope
  ok : Bool

/-- One `send_json` call made by `direct_message`. -/
structure DAttempt where
  recipient : String
  envelope : DirectEnvelope
  ok : Bool

/-- Errors `direct_message` can raise: the `ValueError` for an unknown
recipient, or the re-raised send exception. -/
inductive DMError where
  | recipientNotFound : String → DMError
  | sendFailed : DMError
  deriving DecidableEq

/-- Result dict of `request_collaboration`: either
`{'status': 'no_capable_agents', 'capability':…, 'available_agents': […]}` or
`{'status': 'broadcast_sent', 'capability':…, 'target_agents': […], 'count':…}`. -/
inductive CollabResult where
  | noCapableAgents : String → List String → CollabResult
  | broadcastSent : String → List String → Nat → CollabResult
  deriving DecidableEq

/-- Python-dict lookup on an association list (first match). -/
def alistLookup {α : Type} : List (String × α) → String → Option α
  | [], _ => none
  | (k, v) :: rest, key => if k = key then some v else alistLookup rest key

/-- Python-dict assignment `d[key] = val`: replace in place when the key is
present, append when it is fresh. -/
def alistInsert {α : Type} (l : List (String × α)) (key : String) (val : α) :
    List (String × α) :=
  if (alistLookup l key).isSome then
    l.map (fun kv => if kv.1 = key then (key, val) else kv)
  else l ++ [(key, val)]

/-- Python-dict deletion `del d[key]` guarded by `key in d` (a no-op when
the key is absent). -/
def alistErase {α : Type} (l : List (String × α)) (key : String) :
    List (String × α) :=
  l.filter (fun kv => kv.1 != key)

/-- Python `set.add` on a set of strings. -/
def setAdd (l : List String) (a : String) : List String :=
  if a ∈ l then l else l ++ [a]

/-- Python `set.discard` on a set of strings. -/
def setDiscard (l : List String) (a : String) : List String :=
  l.filter (fun x => x != a)

/-- State of the `AgentMessageBus` object: its three dicts. -/
structure BusState where
  agents : List (String × Conn)
  subscriptions : List (String × List String)
  agentCapabilities : List (String × List String)
  deriving DecidableEq

/-- The freshly constructed bus: all three dicts empty. -/
def initState : BusState := ⟨[], [], []⟩

/-- `subscribersOf(topic)`: the subscriber set read by the delivery loop,
empty for an unknown topic. -/
def subscribersOf (s : BusState) (topic : String) : List String :=
  (alistLookup s.subscriptions topic).getD []

/-- `AgentMessageBus.publish(topic, message, sender_id)`.  Returns the
unchanged state and the list of `send_json` attempts: one attempt per
subscriber of the topic that is distinct from the sender and currently in
`_agents`; a raising send is caught, recorded as `ok = false`, and the
loop continues. -/
def publish (s : BusState) (topic : String) (message : JVal)
    (senderId : String) (now : String) : BusState × List Attempt :=
  match alistLookup s.subscriptions topic with
  | none => (s, [])
  | some subscribers =>
      let payload : Envelope := ⟨topic, senderId, message, now⟩
      (s, subscribers.filterMap (fun aid =>
        if aid ≠ senderId then
          match alistLookup s.agents aid with
          | some conn => some ⟨aid, payload, !conn.failing⟩
          | none => none
        else none))

/-- The `agent_connected` lifecycle payload built by `register_agent`
(`capabilities or []` collapses to the list itself, with `None` as `[]`). -/
def connectedMsg (agentId : String) (capabilities : List String) : JVal :=
  .obj [("event", .str "agent_connected"), ("agent_id", .str agentId),
        ("capabilities", .list (capabilities.map .str))]

/-- The `agent_disconnected` lifecycle payload built by `unregister_agent`. -/
def disconnectedMsg (agentId : String) : JVal :=
  .obj [("event", .str "agent_disconnected"), ("agent_id", .str agentId)]

/-- `AgentMessageBus.register_agent(agent_id, websocket, capabilities)`:
stores the connection, stores the capability list when truthy (non-empty),
then publishes `agent_connected` on `agent_lifecycle` with
`sender_id='system'`.  There is no validation of `agent_id`. -/
def register_agent (s : BusState) (agentId : String) (websocket : Conn)
    (capabilities : List String) (now : String) : BusState × List Attempt :=
  let s1 : BusState :=
    { s with agents := alistInsert s.agents agentId websocket,
             agentCapabilities :=
               if capabilities ≠ [] then
                 alistInsert s.agentCapabilities agentId capabilities
               else s.agentCapabilities }
  publish s1 "agent_lifecycle" (connectedMsg agentId capabilities) "system" now

/-- `AgentMessageBus.unregister_agent(agent_id)`: deletes the registry
entry if present, discards the id from every topic's subscriber set,
deletes the capability entry if present, then (unconditionally) publishes
`agent_disconnected` on `agent_lifecycle` with `sender_id='system'`. -/
def unregister_agent (s : BusState) (agentId : String) (now : String) :
    BusState × List Attempt :=
  let s1 : BusState :=
    { agents := alistErase s.agents agentId,
      subscriptions :=
        s.subscriptions.map (fun ts => (ts.1, setDiscard ts.2 agentId)),
      agentCapabilities := alistErase s.agentCapabilities agentId }
  publish s1 "agent_lifecycle" (disconnectedMsg agentId) "system" now

/-- One iteration of the `subscribe` loop body for a single topic:
create the topic's set if absent, then add the agent id. -/
def subscribeOne (subs : List (String × List String)) (agentId topic : String) :
    List (String × List String) :=
  alistInsert subs topic (setAdd ((alistLookup subs topic).getD []) agentId)

/-- `AgentMessageBus.subscribe(agent_id, topics)`: adds the agent to each
named topic's subscriber set.  No validation that the agent is registered. -/
def subscribe (s : BusState) (agentId : String) (topics : List String) :
    BusState :=
  let subs :=
    topics.foldl (fun subs topic => subscribeOne subs agentId topic)
      s.subscriptions
  { s with subscriptions := subs }

/-- One iteration of the `unsubscribe` loop body for a single topic:
discard the agent id when the topic exists. -/
def unsubscribeOne (subs : List (String × List String)) (agentId topic : String) :
    List (String × List String) :=
  match alistLookup subs topic with
  | some cur => alistInsert subs topic (setDiscard cur agentId)
  | none => subs

/-- `AgentMessageBus.unsubscribe(agent_id, topics)`. -/
def unsubscribe (s : BusState) (agentId : String) (topics : List String) :
    BusState :=
  let subs :=
    topics.foldl (fun subs topic => unsubscribeOne subs agentId topic)
      s.subscriptions
  { s with subscriptions := subs }

/-- The list comprehension of `request_collaboration`: agents whose
capability list contains the needed capability, excluding the requester. -/
def capableAgents (s : BusState) (requesterId capabilityNeeded : String) :
    List String :=
  s.agentCapabilities.filterMap (fun ac =>
    if capabilityNeeded ∈ ac.2 ∧ ac.1 ≠ requesterId then some ac.1 else none)

/-- The structured request payload broadcast on `collaboration_request`. -/
def collabMsg (capabilityNeeded : String) (context : JVal)
    (requesterId : String) (targets : List String) : JVal :=
  .obj [("capability", .str capabilityNeeded), ("context", context),
        ("requester", .str requesterId),
        ("target_agents", .list (targets.map .str))]

/-- `AgentMessageBus.request_collaboration(requester_id, capability_needed,
context)`: finds capable agents other than the requester; when none, returns
the `no_capable_agents` summary without publishing; otherwise broadcasts the
structured request on `collaboration_request` (the requester as sender) and
returns the `broadcast_sent` summary with targets and count. -/
def request_collaboration (s : BusState) (requesterId capabilityNeeded : String)
    (context : JVal) (now : String) : CollabResult × List Attempt :=
  if capableAgents s requesterId capabilityNeeded = [] then
    (.noCapableAgents capabilityNeeded [], [])
  else
    (.broadcastSent capabilityNeeded (capableAgents s requesterId capabilityNeeded)
       (capableAgents s requesterId capabilityNeeded).length,
     (publish s "collaboration_request"
        (collabMsg capabilityNeeded context requesterId
          (capableAgents s requesterId capabilityNeeded))
        requesterId now).2)

/-- `AgentMessageBus.direct_message(sender_id, recipient_id, message)`:
raises `ValueError` (recipient not found) when the recipient has no registry
entry; otherwise performs exactly one `send_json`, re-raising its failure. -/
def direct_message (s : BusState) (senderId recipientId : String)
    (message : JVal) (now : String) : List DAttempt × Option DMError :=
  match alistLookup s.agents recipientId with
  | none => ([], some (.recipientNotFound recipientId))
  | some conn =>
      let payload : DirectEnvelope := ⟨"direct_message", senderId, message, now⟩
      if conn.failing then ([⟨recipientId, payload, false⟩], some .sendFailed)
      else ([⟨recipientId, payload, true⟩], none)

/-- A bus operation, for reasoning about the states reachable through the
`AgentMessageBus` methods. -/
inductive Op where
  | reg : String → Conn → List String → Op
  | unreg : String → Op
  | sub : String → List String → Op
  | unsub : String → List String → Op
  | pub : String → JVal → String → Op

/-- The state transition of one bus operation.  The timestamp argument only
ever appears inside delivered payloads, never in the stored state, so the
step relation fixes an arbitrary one. -/
def step (s : BusState) (op : Op) : BusState :=
  match op with
  | .reg a ws caps => (register_agent s a ws caps "T").1
  | .unreg a => (unregister_agent s a "T").1
  | .sub a ts => subscribe s a ts
  | .unsub a ts => unsubscribe s a ts
  | .pub topic m sid => (publish s topic m sid "T").1

/-- Run a sequence of bus operations from a state. -/
def run (s : BusState) (ops : List Op) : BusState := ops.foldl step s

/-- How one operation changes whether `aid` is currently subscribed to
topic `t`: a `subscribe` naming `t` sets it, an `unsubscribe` naming `t`
or an `unregister` of `aid` clears it, everything else leaves it. -/
def subUpd (aid t : String) (b : Bool) (op : Op) : Bool :=
  match op with
  | .sub a ts => if a = aid ∧ t ∈ ts then true else b
  | .unsub a ts => if a = aid ∧ t ∈ ts then false else b
  | .unreg a => if a = aid then false else b
  | _ => b

/-- Whether, after the operation history `ops`, agent `aid` has issued a
subscribe for `t` with no later matching unsubscribe and no later
unregister. -/
def subscribedAfter (ops : List Op) (aid t : String) : Bool :=
  ops.foldl (subUpd aid t) false

/-! ### Association-list and set lemmas -/

theorem alistLookup_mapReplace {α : Type} (l : List (String × α)) (k k' : String)
    (v : α) :
    alistLookup (l.map (fun kv => if kv.1 = k then (k, v) else kv)) k' =
      if k' = k then (alistLookup l k).map (fun _ => v) else alistLookup l k' := by
  induction l with
  | nil => simp [alistLookup]
  | cons hd tl ih =>
      obtain ⟨a, b⟩ := hd
      simp only [List.map_cons]
      by_cases hak : a = k
      · subst hak
        rw [show (if (a, b).1 = a then (a, v) else (a, b)) = (a, v) from by simp]
        by_cases hk : k' = a
        · subst hk
          simp [alistLookup]
        · simp [alistLookup, hk, Ne.symm hk, ih]
      · rw [show (if (a, b).1 = k then (k, v) else (a, b)) = (a, b) from by
          simp [hak]]
        by_cases hak' : a = k'
        · subst hak'
          simp [alistLookup, hak]
        · simp [alistLookup, hak, hak', ih]

theorem alistLookup_append_single {α : Type} (l : List (String × α))
    (k k' : String) (v : α) (h : alistLookup l k = none) :
    alistLookup (l ++ [(k, v)]) k' =
      if k' = k then some v else alistLookup l k' := by
  induction l with
  | nil => simp [alistLookup, eq_comm]
  | cons hd tl ih =>
      obtain ⟨a, b⟩ := hd
      simp only [alistLookup] at h
      by_cases hak : a = k
      · simp [hak] at h
      · have h' : alistLookup tl k = none := by simpa [hak] using h
        by_cases hak' : a = k'
        · subst hak'
          simp [alistLookup, hak]
        · simp [alistLookup, List.cons_append, hak', ih h']

theorem alistLookup_insert {α : Type} (l : List (String × α)) (k k' : String)
    (v : α) :
    alistLookup (alistInsert l k v) k' =
      if k' = k then some v else alistLookup l k' := by
  unfold alistInsert
  cases hlk : alistLookup l k with
  | none => simp [hlk, alistLookup_append_single l k k' v hlk]
  | some w => simp [hlk, alistLookup_mapReplace, hlk]

theorem alistLookup_erase {α : Type} (l : List (String × α)) (k k' : String) :
    alistLookup (alistErase l k) k' =
      if k' = k then none else alistLookup l k' := by
  induction l with
  | nil => simp [alistLookup, alistErase]
  | cons hd tl ih =>
      obtain ⟨a, b⟩ := hd
      by_cases hak : a = k
      · subst hak
        rw [show alistErase ((a, b) :: tl) a = alistErase tl a from by
          simp [alistErase, List.filter_cons]]
        rw [ih]
        by_cases hk : k' = a
        · simp [hk]
        · simp [alistLookup, hk, Ne.symm hk]
      · rw [show alistErase ((a, b) :: tl) k = (a, b) :: alistErase tl k from by
          simp [alistErase, List.filter_cons, hak]]
        by_cases hak' : a = k'
        · subst hak'
          simp [alistLookup, hak]
        · simp [alistLookup, hak', ih]

theorem alistErase_of_lookup_none {α : Type} (l : List (String × α))
    (k : String) (h : alistLookup l k = none) : alistErase l k = l := by
  induction l with
  | nil => rfl
  | cons hd tl ih =>
      obtain ⟨a, b⟩ := hd
      simp only [alistLookup] at h
      by_cases hak : a = k
      · simp [hak] at h
      · have h' : alistLookup tl k = none := by simpa [hak] using h
        rw [show alistErase ((a, b) :: tl) k = (a, b) :: alistErase tl k from by
          simp [alistErase, List.filter_cons, hak]]
        rw [ih h']

theorem alistErase_idem {α : Type} (l : List (String × α)) (k : String) :
    alistErase (alistErase l k) k = alistErase l k := by
  apply alistErase_of_lookup_none
  simp [alistLookup_erase]

theorem alistLookup_map_setDiscard (l : List (String × List String))
    (a k : String) :
    alistLookup (l.map (fun ts => (ts.1, setDiscard ts.2 a))) k =
      (alistLookup l k).map (fun cur => setDiscard cur a) := by
  induction l with
  | nil => rfl
  | cons hd tl ih =>
      obtain ⟨x, b⟩ := hd
      by_cases hxk : x = k <;> simp [alistLookup, hxk, ih]

theorem mem_setAdd (l : List String) (a x : String) :
    x ∈ setAdd l a ↔ x = a ∨ x ∈ l := by
  unfold setAdd
  by_cases h : a ∈ l
  · simp only [h, if_true]
    constructor
    · exact Or.inr
    · rintro (rfl | hx)
      · exact h
      · exact hx
  · simp [h, or_comm]

theorem mem_setDiscard (l : List String) (a x : String) :
    x ∈ setDiscard l a ↔ x ∈ l ∧ x ≠ a := by
  simp [setDiscard, List.mem_filter, bne_iff_ne]

theorem setDiscard_idem (l : List String) (a : String) :
    setDiscard (setDiscard l a) a = setDiscard l a := by
  simp only [setDiscard, List.filter_filter]
  apply List.filter_congr
  intro x _
  simp [Bool.and_self]

theorem setDiscard_of_not_mem (l : List String) (a : String) (h : a ∉ l) :
    setDiscard l a = l := by
  apply List.filter_eq_self.mpr
  intro x hx
  simp only [bne_iff_ne, ne_eq]
  rintro rfl
  exact h hx

/-! ### Behaviour of `publish` -/

theorem publish_state (s : BusState) (topic : String) (m : JVal)
    (sid now : String) : (publish s topic m sid now).1 = s := by
  unfold publish
  cases alistLookup s.subscriptions topic <;> rfl

theorem mem_publish_iff (s : BusState) (topic : String) (m : JVal)
    (sid now : String) (att : Attempt) :
    att ∈ (publish s topic m sid now).2 ↔
      ∃ conn, att.recipient ∈ subscribersOf s topic ∧ att.recipient ≠ sid ∧
        alistLookup s.agents att.recipient = some conn ∧
        att.envelope = ⟨topic, sid, m, now⟩ ∧ att.ok = !conn.failing := by
  unfold publish subscribersOf
  cases hsub : alistLookup s.subscriptions topic with
  | none => simp
  | some subscribers =>
      simp only [Option.getD_some, List.mem_filterMap]
      constructor
      · rintro ⟨aid, hmem, hf⟩
        by_cases hsid : aid = sid
        · simp [hsid] at hf
        · simp only [ne_eq, hsid, not_false_iff, if_true] at hf
          cases hag : alistLookup s.agents aid with
          | none => simp [hag] at hf
          | some conn =>
              rw [hag] at hf
              have hatt : att = ⟨aid, ⟨topic, sid, m, now⟩, !conn.failing⟩ := by
                simpa using hf.symm
              subst hatt
              exact ⟨conn, hmem, hsid, hag, rfl, rfl⟩
      · rintro ⟨conn, hmem, hsid, hag, henv, hok⟩
        refine ⟨att.recipient, hmem, ?_⟩
        simp only [ne_eq, hsid, not_false_iff, if_true, hag]
        obtain ⟨r, env, ok⟩ := att
        simp only at henv hok
        simp [henv, hok]

theorem exists_publish_recipient_iff (s : BusState) (topic : String) (m : JVal)
    (sid now r : String) :
    (∃ att ∈ (publish s topic m sid now).2, att.recipient = r) ↔
      r ∈ subscribersOf s topic ∧ r ≠ sid ∧
        (alistLookup s.agents r).isSome := by
  constructor
  · rintro ⟨att, hatt, rfl⟩
    obtain ⟨conn, hmem, hsid, hag, -, -⟩ := (mem_publish_iff _ _ _ _ _ _).mp hatt
    exact ⟨hmem, hsid, by simp [hag]⟩
  · rintro ⟨hmem, hsid, hag⟩
    obtain ⟨conn, hconn⟩ := Option.isSome_iff_exists.mp hag
    refine ⟨⟨r, ⟨topic, sid, m, now⟩, !conn.failing⟩, ?_, rfl⟩
    exact (mem_publish_iff _ _ _ _ _ _).mpr ⟨conn, hmem, hsid, hconn, rfl, rfl⟩

theorem publish_envelope (s : BusState) (topic : String) (m : JVal)
    (sid now : String) (att : Attempt) (h : att ∈ (publish s topic m sid now).2) :
    att.envelope = ⟨topic, sid, m, now⟩ := by
  obtain ⟨conn, -, -, -, henv, -⟩ := (mem_publish_iff _ _ _ _ _ _).mp h
  exact henv

/-! ### State fields after each operation -/

theorem register_agents (s : BusState) (a : String) (ws : Conn)
    (caps : List String) (now : String) :
    (register_agent s a ws caps now).1.agents = alistInsert s.agents a ws := by
  unfold register_agent
  rw [publish_state]

theorem register_subscriptions (s : BusState) (a : String) (ws : Conn)
    (caps : List String) (now : String) :
    (register_agent s a ws caps now).1.subscriptions = s.subscriptions := by
  unfold register_agent
  rw [publish_state]

theorem register_capabilities (s : BusState) (a : String) (ws : Conn)
    (caps : List String) (now : String) :
    (register_agent s a ws caps now).1.agentCapabilities =
      if caps ≠ [] then alistInsert s.agentCapabilities a caps
      else s.agentCapabilities := by
  unfold register_agent
  rw [publish_state]

theorem register_attempts (s : BusState) (a : String) (ws : Conn)
    (caps : List String) (now : String) :
    (register_agent s a ws caps now).2 =
      (publish (register_agent s a ws caps now).1 "agent_lifecycle"
        (connectedMsg a caps) "system" now).2 := by
  unfold register_agent
  rw [publish_state]

theorem unregister_agents (s : BusState) (a now : String) :
    (unregister_agent s a now).1.agents = alistErase s.agents a := by
  unfold unregister_agent
  rw [publish_state]

theorem unregister_subscriptions (s : BusState) (a now : String) :
    (unregister_agent s a now).1.subscriptions =
      s.subscriptions.map (fun ts => (ts.1, setDiscard ts.2 a)) := by
  unfold unregister_agent
  rw [publish_state]

theorem unregister_capabilities (s : BusState) (a now : String) :
    (unregister_agent s a now).1.agentCapabilities =
      alistErase s.agentCapabilities a := by
  unfold unregister_agent
  rw [publish_state]

theorem unregister_attempts (s : BusState) (a now : String) :
    (unregister_agent s a now).2 =
      (publish (unregister_agent s a now).1 "agent_lifecycle"
        (disconnectedMsg a) "system" now).2 := by
  unfold unregister_agent
  rw [publish_state]

theorem subscribe_agents (s : BusState) (a : String) (ts : List String) :
    (subscribe s a ts).agents = s.agents := rfl

theorem subscribe_capabilities (s : BusState) (a : String) (ts : List String) :
    (subscribe s a ts).agentCapabilities = s.agentCapabilities := rfl

theorem unsubscribe_agents (s : BusState) (a : String) (ts : List String) :
    (unsubscribe s a ts).agents = s.agents := rfl

theorem unsubscribe_capabilities (s : BusState) (a : String) (ts : List String) :
    (unsubscribe s a ts).agentCapabilities = s.agentCapabilities := rfl

/-! ### Membership in subscriber sets after each operation -/

theorem mem_subscribeOne (subs : List (String × List String))
    (agentId topic aid t : String) :
    aid ∈ (alistLookup (subscribeOne subs agentId topic) t).getD [] ↔
      (aid = agentId ∧ t = topic) ∨ aid ∈ (alistLookup subs t).getD [] := by
  unfold subscribeOne
  rw [alistLookup_insert]
  by_cases ht : t = topic
  · subst ht
    simp [mem_setAdd]
  · simp [ht]

theorem mem_subscribe (s : BusState) (agentId : String) (topics : List String)
    (aid t : String) :
    aid ∈ subscribersOf (subscribe s agentId topics) t ↔
      (aid = agentId ∧ t ∈ topics) ∨ aid ∈ subscribersOf s t := by
  unfold subscribe subscribersOf
  simp only
  induction topics generalizing s with
  | nil => simp
  | cons tp rest ih =>
      simp only [List.foldl_cons, List.mem_cons]
      have := ih { s with subscriptions := subscribeOne s.subscriptions agentId tp }
      simp only at this
      rw [this, mem_subscribeOne]
      tauto

theorem mem_unsubscribeOne (subs : List (String × List String))
    (agentId topic aid t : String) :
    aid ∈ (alistLookup (unsubscribeOne subs agentId topic) t).getD [] ↔
      aid ∈ (alistLookup subs t).getD [] ∧ ¬(aid = agentId ∧ t = topic) := by
  unfold unsubscribeOne
  cases hcur : alistLookup subs topic with
  | none =>
      by_cases ht : t = topic
      · subst ht
        simp [hcur]
      · simp [ht]
  | some cur =>
      rw [alistLookup_insert]
      by_cases ht : t = topic
      · subst ht
        simp [hcur, mem_setDiscard]
      · simp [ht]

theorem mem_unsubscribe (s : BusState) (agentId : String) (topics : List String)
    (aid t : String) :
    aid ∈ subscribersOf (unsubscribe s agentId topics) t ↔
      aid ∈ subscribersOf s t ∧ ¬(aid = agentId ∧ t ∈ topics) := by
  unfold unsubscribe subscribersOf
  simp only
  induction topics generalizing s with
  | nil => simp
  | cons tp rest ih =>
      simp only [List.foldl_cons, List.mem_cons]
      have := ih { s with subscriptions := unsubscribeOne s.subscriptions agentId tp }
      simp only at this
      rw [this, mem_unsubscribeOne]
      tauto

theorem mem_unregister_subscribers (s : BusState) (agentId now aid t : String) :
    aid ∈ subscribersOf (unregister_agent s agentId now).1 t ↔
      aid ∈ subscribersOf s t ∧ aid ≠ agentId := by
  unfold subscribersOf
  rw [unregister_subscriptions, alistLookup_map_setDiscard]
  cases alistLookup s.subscriptions t with
  | none => simp
  | some cur => simp [mem_setDiscard]

theorem mem_register_subscribers (s : BusState) (a : String) (ws : Conn)
    (caps : List String) (now aid t : String) :
    aid ∈ subscribersOf (register_agent s a ws caps now).1 t ↔
      aid ∈ subscribersOf s t := by
  unfold subscribersOf
  rw [register_subscriptions]

/-! ### Subscriber-set membership along an operation history -/

theorem mem_step_iff (s : BusState) (op : Op) (aid t : String) :
    aid ∈ subscribersOf (step s op) t ↔
      subUpd aid t (decide (aid ∈ subscribersOf s t)) op = true := by
  cases op with
  | reg a ws caps =>
      simp [step, subUpd, mem_register_subscribers]
  | unreg a =>
      simp only [step, subUpd, mem_unregister_subscribers]
      by_cases h : a = aid
      · subst h
        simp
      · rw [if_neg h, decide_eq_true_iff]
        simp [Ne.symm h]
  | sub a ts =>
      simp only [step, subUpd, mem_subscribe]
      by_cases h : a = aid ∧ t ∈ ts
      · rw [if_pos h]
        simp only [eq_self_iff_true, iff_true]
        exact Or.inl ⟨h.1.symm, h.2⟩
      · rw [if_neg h, decide_eq_true_iff]
        constructor
        · rintro (⟨h1, h2⟩ | hm)
          · exact absurd ⟨h1.symm, h2⟩ h
          · exact hm
        · exact Or.inr
  | unsub a ts =>
      simp only [step, subUpd, mem_unsubscribe]
      by_cases h : a = aid ∧ t ∈ ts
      · rw [if_pos h]
        simp [h.1, h.2]
      · rw [if_neg h, decide_eq_true_iff]
        constructor
        · exact fun hx => hx.1
        · exact fun hm => ⟨hm, fun hx => h ⟨hx.1.symm, hx.2⟩⟩
  | pub topic m sid =>
      simp [step, subUpd, publish_state, decide_eq_true_iff]

theorem run_mem_iff (ops : List Op) : ∀ (s : BusState) (aid t : String),
    (aid ∈ subscribersOf (run s ops) t) ↔
      ops.foldl (subUpd aid t) (decide (aid ∈ subscribersOf s t)) = true := by
  induction ops with
  | nil =>
      intro s aid t
      simp [run, decide_eq_true_iff]
  | cons op rest ih =>
      intro s aid t
      simp only [run, List.foldl_cons]
      have h1 := ih (step s op) aid t
      have h2 : decide (aid ∈ subscribersOf (step s op) t) =
          subUpd aid t (decide (aid ∈ subscribersOf s t)) op := by
        rw [Bool.eq_iff_iff, decide_eq_true_iff]
        exact mem_step_iff s op aid t
      rw [show List.foldl step (step s op) rest = run (step s op) rest from rfl,
        h1, h2]

theorem busState_ext (s1 s2 : BusState) (h1 : s1.agents = s2.agents)
    (h2 : s1.subscriptions = s2.subscriptions)
    (h3 : s1.agentCapabilities = s2.agentCapabilities) : s1 = s2 := by
  cases s1
  cases s2
  simp_all

theorem map_setDiscard_idem (l : List (String × List String)) (a : String) :
    (l.map (fun ts => (ts.1, setDiscard ts.2 a))).map
        (fun ts => (ts.1, setDiscard ts.2 a)) =
      l.map (fun ts => (ts.1, setDiscard ts.2 a)) := by
  induction l with
  | nil => rfl
  | cons hd tl ih => simp [setDiscard_idem, ih]

theorem subscribersOf_register (s : BusState) (a : String) (ws : Conn)
    (caps : List String) (now t : String) :
    subscribersOf (register_agent s a ws caps now).1 t = subscribersOf s t := by
  unfold subscribersOf
  rw [register_subscriptions]

/-! ### The claims -/

/-- C1, counterexample: in the reachable state where agent "b" has
subscribed to topic "t" without ever being registered, a publish to "t" by
the registered agent "a" makes no delivery attempt to "b", even though "b"
is a subscriber of "t" distinct from the sender.  So publish does not
attempt delivery to every subscriber of the topic other than the sender. -/
theorem publish_skips_unregistered_subscriber_cx :
    "b" ∈ subscribersOf
        (run initState [.reg "a" ⟨0, false⟩ [], .sub "b" ["t"]]) "t" ∧
    "b" ≠ "a" ∧
    ¬∃ att ∈ (publish (run initState [.reg "a" ⟨0, false⟩ [], .sub "b" ["t"]])
        "t" (.str "m") "a" "T").2, att.recipient = "b" := by
  decide

/-- C1, amended: publish attempts delivery to exactly the agents that are
subscribers of the topic, distinct from the sender, and currently present
in the Connection Registry; in particular the sender never receives its
own broadcast. -/
theorem publish_targets_registered_subscribers (s : BusState) (topic : String)
    (m : JVal) (sid now r : String) :
    (∃ att ∈ (publish s topic m sid now).2, att.recipient = r) ↔
      r ∈ subscribersOf s topic ∧ r ≠ sid ∧
        (alistLookup s.agents r).isSome :=
  exists_publish_recipient_iff s topic m sid now r

/-- C1, witness: a registered non-sender subscriber "c" does receive a
delivery attempt. -/
theorem publish_targets_registered_subscribers_witness :
    ∃ att ∈ (publish (run initState [.reg "a" ⟨0, false⟩ [],
        .reg "c" ⟨1, false⟩ [], .sub "c" ["t"]]) "t" (.str "m") "a" "T").2,
      att.recipient = "c" :=
  (publish_targets_registered_subscribers _ "t" (.str "m") "a" "T" "c").mpr
    (by decide)

/-- C2, counterexample: `subscribe` performs no registration check, so from
the empty bus the single operation `subscribe("a", ["t"])` reaches a state
where "a" is in the Subscription Index for "t" while having no entry in the
Connection Registry — the index contains an unregistered identifier. -/
theorem subscription_index_unregistered_entry_cx :
    "a" ∈ subscribersOf (run initState [.sub "a" ["t"]]) "t" ∧
    alistLookup (run initState [.sub "a" ["t"]]).agents "a" = none := by
  decide

/-- C2, amended: in every state reachable through the bus operations, an
agent id appears in the Subscription Index for topic `t` exactly when its
history contains a subscribe for `t` with no later matching unsubscribe
and no later unregister of that agent.  Registration is not required. -/
theorem subscription_index_matches_history (ops : List Op) (aid t : String) :
    aid ∈ subscribersOf (run initState ops) t ↔
      subscribedAfter ops aid t = true := by
  have h0 : decide (aid ∈ subscribersOf initState t) = false := rfl
  rw [run_mem_iff ops initState aid t, h0]
  exact Iff.rfl

/-- C3: when no agent other than the requester declares the capability,
`request_collaboration` returns the `no_capable_agents` summary with an
empty target list and publishes nothing; otherwise it returns
`broadcast_sent` with the target list being exactly the other agents
declaring the capability (the requester excluded even if it declares the
capability itself) together with the count, and its delivery attempts are
those of one publish of the structured request on `collaboration_request`. -/
theorem request_collaboration_correct (s : BusState) (rid cap : String)
    (ctx : JVal) (now : String) :
    (∀ x, x ∈ capableAgents s rid cap ↔
       ((∃ e ∈ s.agentCapabilities, e.1 = x ∧ cap ∈ e.2) ∧ x ≠ rid)) ∧
    (capableAgents s rid cap = [] →
       request_collaboration s rid cap ctx now =
         (.noCapableAgents cap [], [])) ∧
    (capableAgents s rid cap ≠ [] →
       request_collaboration s rid cap ctx now =
         (.broadcastSent cap (capableAgents s rid cap)
            (capableAgents s rid cap).length,
          (publish s "collaboration_request"
             (collabMsg cap ctx rid (capableAgents s rid cap)) rid now).2)) := by
  refine ⟨?_, ?_, ?_⟩
  · intro x
    unfold capableAgents
    rw [List.mem_filterMap]
    constructor
    · rintro ⟨e, he, hf⟩
      by_cases hc : cap ∈ e.2 ∧ e.1 ≠ rid
      · rw [if_pos hc] at hf
        obtain rfl := Option.some.inj hf
        exact ⟨⟨e, he, rfl, hc.1⟩, hc.2⟩
      · rw [if_neg hc] at hf
        exact absurd hf (by simp)
    · rintro ⟨⟨e, he, hex, hce⟩, hxr⟩
      refine ⟨e, he, ?_⟩
      rw [if_pos ⟨hce, hex ▸ hxr⟩, hex]
  · intro h
    unfold request_collaboration
    rw [if_pos h]
  · intro h
    unfold request_collaboration
    rw [if_neg h]

/-- C3, witness: with only the requester declaring "scan" the summary is
`no_capable_agents` with no publish; with another agent "x" also declaring
"scan" the summary is `broadcast_sent` over the `collaboration_request`
publish. -/
theorem request_collaboration_correct_witness :
    (request_collaboration (run initState [.reg "r" ⟨0, false⟩ ["scan"]]) "r"
        "scan" (.str "c") "T" = (.noCapableAgents "scan" [], [])) ∧
    (request_collaboration
        (run initState [.reg "r" ⟨0, false⟩ ["scan"], .reg "x" ⟨1, false⟩ ["scan"]])
        "r" "scan" (.str "c") "T" =
      (.broadcastSent "scan"
         (capableAgents
           (run initState [.reg "r" ⟨0, false⟩ ["scan"], .reg "x" ⟨1, false⟩ ["scan"]])
           "r" "scan")
         (capableAgents
           (run initState [.reg "r" ⟨0, false⟩ ["scan"], .reg "x" ⟨1, false⟩ ["scan"]])
           "r" "scan").length,
       (publish
          (run initState [.reg "r" ⟨0, false⟩ ["scan"], .reg "x" ⟨1, false⟩ ["scan"]])
          "collaboration_request"
          (collabMsg "scan" (.str "c") "r"
            (capableAgents
              (run initState [.reg "r" ⟨0, false⟩ ["scan"], .reg "x" ⟨1, false⟩ ["scan"]])
              "r" "scan"))
          "r" "T").2)) :=
  ⟨(request_collaboration_correct _ "r" "scan" (.str "c") "T").2.1 (by decide),
   (request_collaboration_correct _ "r" "scan" (.str "c") "T").2.2 (by decide)⟩

/-- C4: `direct_message` fails with the recipient-not-found error exactly
when the recipient is not in the Connection Registry; when the recipient is
registered it performs exactly one delivery attempt, and a failure of that
single delivery propagates to the caller as an error. -/
theorem direct_message_correct (s : BusState) (sid rid : String) (m : JVal)
    (now : String) :
    ((direct_message s sid rid m now).2 = some (.recipientNotFound rid) ↔
       alistLookup s.agents rid = none) ∧
    (∀ conn, alistLookup s.agents rid = some conn →
       (direct_message s sid rid m now).1 =
         [⟨rid, ⟨"direct_message", sid, m, now⟩, !conn.failing⟩] ∧
       ((direct_message s sid rid m now).2 = none ↔ conn.failing = false) ∧
       (conn.failing = true →
         (direct_message s sid rid m now).2 = some .sendFailed)) := by
  cases hag : alistLookup s.agents rid with
  | none => simp [direct_message, hag]
  | some conn =>
      cases hcf : conn.failing <;> simp [direct_message, hag, hcf]

/-- C4, witness: a direct message to the registered agent "b" over a
healthy connection makes exactly one successful delivery attempt. -/
theorem direct_message_correct_witness :
    (direct_message (run initState [.reg "b" ⟨0, false⟩ []]) "a" "b"
        (.str "m") "T").1 =
      [⟨"b", ⟨"direct_message", "a", .str "m", "T"⟩, true⟩] :=
  ((direct_message_correct _ "a" "b" (.str "m") "T").2 ⟨0, false⟩ (by decide)).1

/-- C5: a broadcast delivery failure is caught inside publish: publish
leaves the registry and the index untouched, and every registered
subscriber other than the sender still gets its own delivery attempt
(succeeding exactly when its connection does not fail), regardless of which
other connections fail. -/
theorem publish_failure_isolated (s : BusState) (topic : String) (m : JVal)
    (sid now r : String) (conn : Conn) (h1 : r ∈ subscribersOf s topic)
    (h2 : r ≠ sid) (h3 : alistLookup s.agents r = some conn) :
    (publish s topic m sid now).1 = s ∧
    Attempt.mk r ⟨topic, sid, m, now⟩ (!conn.failing) ∈
      (publish s topic m sid now).2 :=
  ⟨publish_state s topic m sid now,
   (mem_publish_iff s topic m sid now _).mpr ⟨conn, h1, h2, h3, rfl, rfl⟩⟩

/-- C5, witness: with subscriber "f" on a failing connection and subscriber
"c" on a healthy one, "c" still receives its attempt and the state is
unchanged. -/
theorem publish_failure_isolated_witness :
    (publish (run initState [.reg "a" ⟨0, false⟩ [], .reg "f" ⟨1, true⟩ [],
        .reg "c" ⟨2, false⟩ [], .sub "f" ["t"], .sub "c" ["t"]])
        "t" (.str "m") "a" "T").1 =
      run initState [.reg "a" ⟨0, false⟩ [], .reg "f" ⟨1, true⟩ [],
        .reg "c" ⟨2, false⟩ [], .sub "f" ["t"], .sub "c" ["t"]] ∧
    Attempt.mk "c" ⟨"t", "a", .str "m", "T"⟩ true ∈
      (publish (run initState [.reg "a" ⟨0, false⟩ [], .reg "f" ⟨1, true⟩ [],
          .reg "c" ⟨2, false⟩ [], .sub "f" ["t"], .sub "c" ["t"]])
          "t" (.str "m") "a" "T").2 :=
  publish_failure_isolated _ "t" (.str "m") "a" "T" "c" ⟨2, false⟩
    (by decide) (by decide) (by decide)

/-- C6: publishing to a topic whose subscriber set is empty (including a
topic nobody ever subscribed to) is a no-op: the state is unchanged and no
delivery attempt is made. -/
theorem publish_empty_topic_noop (s : BusState) (topic : String) (m : JVal)
    (sid now : String) (h : subscribersOf s topic = []) :
    publish s topic m sid now = (s, []) := by
  unfold publish
  cases hsub : alistLookup s.subscriptions topic with
  | none => rfl
  | some subscribers =>
      unfold subscribersOf at h
      rw [hsub] at h
      simp only [Option.getD_some] at h
      subst h
      rfl

/-- C6, witness: publishing to the never-subscribed topic "t" with one
registered agent returns the unchanged state and zero attempts. -/
theorem publish_empty_topic_noop_witness :
    publish (run initState [.reg "a" ⟨0, false⟩ []]) "t" (.str "m") "a" "T" =
      (run initState [.reg "a" ⟨0, false⟩ []], []) :=
  publish_empty_topic_noop _ "t" (.str "m") "a" "T" (by decide)

/-- C7, counterexample: calling `unregister_agent` on the never-registered
identifier "ghost" is not a silent no-op: the `agent_disconnected`
broadcast is still published, and the lifecycle subscriber "b" receives a
delivery attempt. -/
theorem unregister_never_registered_broadcasts_cx :
    alistLookup (run initState
        [.reg "b" ⟨0, false⟩ [], .sub "b" ["agent_lifecycle"]]).agents
        "ghost" = none ∧
    (unregister_agent (run initState
        [.reg "b" ⟨0, false⟩ [], .sub "b" ["agent_lifecycle"]])
        "ghost" "T").2.map (fun att => att.recipient) = ["b"] := by
  decide

/-- C7, amended: `unregister_agent` never fails and is idempotent on the
state; after it the agent is in no registry entry, no subscriber set, and
no capability entry; on an identifier with no registry and no capability
entry it leaves those two maps unchanged; but it always broadcasts
`agent_disconnected` on the lifecycle topic, even for a never-registered
identifier. -/
theorem unregister_correct (s : BusState) (aid now : String) :
    (alistLookup (unregister_agent s aid now).1.agents aid = none) ∧
    (∀ t, aid ∉ subscribersOf (unregister_agent s aid now).1 t) ∧
    (alistLookup (unregister_agent s aid now).1.agentCapabilities aid = none) ∧
    ((unregister_agent (unregister_agent s aid now).1 aid now).1 =
       (unregister_agent s aid now).1) ∧
    (alistLookup s.agents aid = none →
       (unregister_agent s aid now).1.agents = s.agents) ∧
    (alistLookup s.agentCapabilities aid = none →
       (unregister_agent s aid now).1.agentCapabilities =
         s.agentCapabilities) ∧
    (∀ att ∈ (unregister_agent s aid now).2,
       att.envelope = ⟨"agent_lifecycle", "system", disconnectedMsg aid, now⟩) := by
  refine ⟨?_, ?_, ?_, ?_, ?_, ?_, ?_⟩
  · rw [unregister_agents, alistLookup_erase]
    simp
  · intro t
    simp [mem_unregister_subscribers]
  · rw [unregister_capabilities, alistLookup_erase]
    simp
  · apply busState_ext
    · rw [unregister_agents, unregister_agents, alistErase_idem]
    · rw [unregister_subscriptions, unregister_subscriptions,
        map_setDiscard_idem]
    · rw [unregister_capabilities, unregister_capabilities, alistErase_idem]
  · intro h
    rw [unregister_agents, alistErase_of_lookup_none _ _ h]
  · intro h
    rw [unregister_capabilities, alistErase_of_lookup_none _ _ h]
  · intro att hatt
    rw [unregister_attempts] at hatt
    exact publish_envelope _ _ _ _ _ _ hatt

/-- C7, witness: unregistering the registered, subscribed agent "b" purges
it from the registry, and unregistering the never-registered "ghost"
leaves the registry unchanged. -/
theorem unregister_correct_witness :
    (alistLookup (unregister_agent (run initState
        [.reg "b" ⟨0, false⟩ ["scan"], .sub "b" ["t"]]) "b" "T").1.agents
        "b" = none) ∧
    ((unregister_agent (run initState
        [.reg "b" ⟨0, false⟩ ["scan"], .sub "b" ["t"]]) "ghost" "T").1.agents =
      (run initState [.reg "b" ⟨0, false⟩ ["scan"], .sub "b" ["t"]]).agents) :=
  ⟨(unregister_correct _ "b" "T").1,
   (unregister_correct _ "ghost" "T").2.2.2.2.1 (by decide)⟩

/-- C8, counterexample: `register_agent` applies no validation to the agent
identifier: registering the empty string succeeds, stores the connection
and the capability entry, and triggers the lifecycle broadcast (delivered
here to the lifecycle subscriber "b"). -/
theorem register_empty_id_succeeds_cx :
    alistLookup (register_agent (run initState
        [.reg "b" ⟨0, false⟩ [], .sub "b" ["agent_lifecycle"]])
        "" ⟨1, false⟩ ["scan"] "T").1.agents "" = some ⟨1, false⟩ ∧
    alistLookup (register_agent (run initState
        [.reg "b" ⟨0, false⟩ [], .sub "b" ["agent_lifecycle"]])
        "" ⟨1, false⟩ ["scan"] "T").1.agentCapabilities "" = some ["scan"] ∧
    (register_agent (run initState
        [.reg "b" ⟨0, false⟩ [], .sub "b" ["agent_lifecycle"]])
        "" ⟨1, false⟩ ["scan"] "T").2.map (fun att => att.recipient) = ["b"] := by
  decide

/-- C8, amended: `register_agent` succeeds for every agent identifier, the
empty string included, storing the connection; the capability list is
stored when non-empty and the capability map is untouched when it is empty
(the code stores it only when truthy). -/
theorem register_stores_unconditionally (s : BusState) (aid : String)
    (ws : Conn) (caps : List String) (now : String) :
    alistLookup (register_agent s aid ws caps now).1.agents aid = some ws ∧
    (caps ≠ [] →
      alistLookup (register_agent s aid ws caps now).1.agentCapabilities aid =
        some caps) ∧
    (caps = [] →
      (register_agent s aid ws caps now).1.agentCapabilities =
        s.agentCapabilities) := by
  refine ⟨?_, ?_, ?_⟩
  · rw [register_agents, alistLookup_insert]
    simp
  · intro h
    rw [register_capabilities, if_pos h, alistLookup_insert]
    simp
  · intro h
    rw [register_capabilities, if_neg (by simp [h])]

/-- C8, witness: registering under the empty identifier with a non-empty
capability list stores that capability list. -/
theorem register_stores_unconditionally_witness :
    alistLookup (register_agent initState "" ⟨0, false⟩ ["scan"]
        "T").1.agentCapabilities "" = some ["scan"] :=
  (register_stores_unconditionally initState "" ⟨0, false⟩ ["scan"] "T").2.1
    (by decide)

/-- C9, counterexample: the `agent_connected` broadcast is published with
`sender_id='system'`, not the new agent's id, so an agent that is already
in the lifecycle topic's subscriber set when it registers receives its own
`agent_connected` event — here "a" subscribes to `agent_lifecycle` and then
registers, and the registration's only delivery attempt targets "a"
itself. -/
theorem register_self_receives_connected_cx :
    (register_agent (run initState [.sub "a" ["agent_lifecycle"]]) "a"
        ⟨0, false⟩ [] "T").2.map (fun att => att.recipient) = ["a"] ∧
    (register_agent (run initState [.sub "a" ["agent_lifecycle"]]) "a"
        ⟨0, false⟩ [] "T").2.map (fun att => att.envelope.data) =
      [connectedMsg "a" []] := by
  exact ⟨by decide, by rfl⟩

/-- C9, amended: on registration the `agent_connected` notification is
broadcast on the lifecycle topic with sender "system", and a delivery is
attempted exactly to the lifecycle subscribers that are registered after
the insertion and whose id is not "system" — which includes the newly
registered agent itself whenever it is subscribed to the lifecycle topic. -/
theorem register_lifecycle_broadcast (s : BusState) (aid : String) (ws : Conn)
    (caps : List String) (now r : String) :
    ((∃ att ∈ (register_agent s aid ws caps now).2, att.recipient = r) ↔
      (r ∈ subscribersOf s "agent_lifecycle" ∧ r ≠ "system" ∧
        (r = aid ∨ (alistLookup s.agents r).isSome))) ∧
    (∀ att ∈ (register_agent s aid ws caps now).2,
      att.envelope = ⟨"agent_lifecycle", "system", connectedMsg aid caps, now⟩) := by
  constructor
  · rw [register_attempts, exists_publish_recipient_iff,
      subscribersOf_register, register_agents, alistLookup_insert]
    by_cases hr : r = aid
    · simp [hr]
    · simp [hr]
  · intro att hatt
    rw [register_attempts] at hatt
    exact publish_envelope _ _ _ _ _ _ hatt

/-- C9, witness: the registered lifecycle subscriber "b" receives the
`agent_connected` notification for the newly registered "a". -/
theorem register_lifecycle_broadcast_witness :
    ∃ att ∈ (register_agent (run initState
        [.reg "b" ⟨0, false⟩ [], .sub "b" ["agent_lifecycle"]])
        "a" ⟨1, false⟩ [] "T").2, att.recipient = "b" :=
  ((register_lifecycle_broadcast _ "a" ⟨1, false⟩ [] "T" "b").1).mpr (by decide)

/-- C10: publish never errors on a subscriber id missing from the
Connection Registry: every delivery attempt it makes targets a currently
registered agent, and a subscribed-but-unregistered id receives no attempt
at all. -/
theorem publish_skips_unregistered_silently (s : BusState) (topic : String)
    (m : JVal) (sid now : String) :
    (∀ att ∈ (publish s topic m sid now).2,
       (alistLookup s.agents att.recipient).isSome) ∧
    (∀ r, alistLookup s.agents r = none →
       ¬∃ att ∈ (publish s topic m sid now).2, att.recipient = r) := by
  constructor
  · intro att hatt
    obtain ⟨conn, -, -, hag, -, -⟩ := (mem_publish_iff _ _ _ _ _ _).mp hatt
    simp [hag]
  · rintro r hr ⟨att, hatt, rfl⟩
    obtain ⟨conn, -, -, hag, -, -⟩ := (mem_publish_iff _ _ _ _ _ _).mp hatt
    rw [hr] at hag
    exact Option.noConfusion hag

/-- C10, witness: the subscribed-but-unregistered id "b" receives no
attempt from a publish whose topic it subscribes to. -/
theorem publish_skips_unregistered_silently_witness :
    ¬∃ att ∈ (publish (run initState [.reg "a" ⟨0, false⟩ [], .sub "b" ["t"]])
        "t" (.str "m") "a" "T").2, att.recipient = "b" :=
  (publish_skips_unregistered_silently _ "t" (.str "m") "a" "T").2 "b"
    (by decide)

end AgentBus
